import Mathlib

/-!
Verification development for the TCP-to-WebSocket tunneling proxy of
`src/appservice/src/TunnelProxy.ts`.

The embedding translates the source faithfully:

* `ITunnelStatus`, `checkTunnelStatus`, `startupApp` model the status payload
  and the pure classification logic of `TunnelProxy.checkTunnelStatus` /
  `TunnelProxy.startupApp`.  The network outcomes (the HTTP GET of the status
  endpoint, the wake ping) are explicit inputs.
* `checkLoopFrom` / `checkTunnelStatusWithRetry` model the polling loop of
  `TunnelProxy.checkTunnelStatusWithRetry`, with its hardcoded 240 s timeout
  and 5000 ms interval.  The status request is treated as instantaneous, so
  iteration `i` begins at time `i * pollingIntervalMs`; the loop result also
  records the trace of emitted events (polls, wake pings, interval sleeps).
* `startProxy` models `TunnelProxy.startProxy`: first the retry loop, then
  (only on success) `setupTunnelServer`, which calls
  `server.listen({host: localhost, port, backlog: 1})`.
* `TS` and `TS.run` model the `TunnelSocket` event machine together with the
  event semantics of its two legs that the source relies on: a Node
  `net.Socket.destroy()` on a not-yet-closed socket makes the socket emit a
  `close` event, and `websocket.connection.close()` on an open connection
  completes a close handshake after which the connection emits `close`;
  a close or error event of either leg runs the handler installed by
  `TunnelSocket.connect`, which calls `this.dispose()` and then emits the
  terminal notification on the `TunnelSocket` itself.
* `ProxyState` / `ProxyState.dispose` model the mutable fields of the
  `TunnelProxy` class and `TunnelProxy.dispose` (dispose every registered
  socket, then `server.close()` and `server.unref()`; the Node
  `net.Server.close()` without a callback reports no error even when the
  server is not listening).
-/

namespace TunnelProxyModel

/-- Status payload decoded from the `GetStatus` endpoint
(`interface ITunnelStatus` in the source).  The `state` field arrives as a
JSON string and is compared against the `AppState` enum string values, so it
is modelled as a `String`. -/
structure ITunnelStatus where
  port : Int
  canReachPort : Bool
  state : String
  msg : String
deriving Repr, DecidableEq

/-- Outcome of the HTTP GET + JSON decode of the status endpoint.  `failure`
carries the fields of the `IParsedError` produced by `parseError` for the
underlying error (`errorType` and `message`). -/
inductive FetchResult where
  | success (status : ITunnelStatus)
  | failure (errorType : String) (message : String)
deriving Repr, DecidableEq

/-- Outcome of the wake-ping HTTP GET issued by `startupApp`.  The request is
made with `simple: false`, so any HTTP response (any status code, 2xx or not)
resolves the call; only a transport-level rejection makes it fail, carrying
the parsed message of the underlying error. -/
inductive PingResult where
  | response (statusCode : Nat)
  | transportError (message : String)
deriving Repr, DecidableEq

/-- Errors thrown by `checkTunnelStatus`: the marker class
`RetryableTunnelStatusError`, or a generic `Error` with a message
(`parseError(e).message` of the thrown error, which for `new Error(m)` is
`m`). -/
inductive TunnelError where
  | retryable
  | generic (message : String)
deriving Repr, DecidableEq

/-- Result of one `checkTunnelStatus` call: normal return or a thrown error. -/
inductive CheckResult where
  | ok
  | err (e : TunnelError)
deriving Repr, DecidableEq

/-- Result of one poll, together with whether the wake ping was issued during
the call (the `startupApp()` request of the `STOPPED` branch). -/
structure PollOutcome where
  result : CheckResult
  pingIssued : Bool
deriving Repr, DecidableEq

/-- Model of `TunnelProxy.startupApp`: performs the wake-ping GET with
`simple: false`; it resolves for every HTTP response regardless of status
code and rejects (returning the error message) only on a transport failure. -/
def startupApp (ping : PingResult) : Option String :=
  match ping with
  | .response _ => none
  | .transportError m => some m

/-- Model of `TunnelProxy.checkTunnelStatus`.  The fetch outcome and the
(possible) wake-ping outcome are inputs; the function mirrors the source
branch for branch, including the exact error message templates produced via
`localize` (with the argument substituted for the placeholder). -/
def checkTunnelStatus (isSsh : Bool) (fetch : FetchResult) (ping : PingResult) :
    PollOutcome :=
  match fetch with
  | .failure errorType _message =>
      ⟨.err (.generic ("Error getting tunnel status: " ++ errorType)), false⟩
  | .success tunnelStatus =>
      if tunnelStatus.state = "STARTED" then
        if (tunnelStatus.port == 2222 && !isSsh) ||
           (tunnelStatus.port != 2222 && isSsh) then
          ⟨.err .retryable, false⟩
        else if tunnelStatus.canReachPort then
          ⟨.ok, false⟩
        else
          ⟨.err (.generic "App is started, but port is unreachable"), false⟩
      else if tunnelStatus.state = "STARTING" then
        ⟨.err .retryable, false⟩
      else if tunnelStatus.state = "STOPPED" then
        match startupApp ping with
        | none => ⟨.err .retryable, true⟩
        | some m => ⟨.err (.generic m), true⟩
      else
        ⟨.err (.generic ("Unexpected app state: " ++ tunnelStatus.state)), false⟩

/-- Spec-level classification of a poll outcome: Ready (normal return),
Retryable (`RetryableTunnelStatusError` thrown), Fatal (any other error). -/
inductive Classification where
  | Ready
  | Retryable
  | Fatal
deriving Repr, DecidableEq

/-- Classification of a poll outcome. -/
def PollOutcome.classification : PollOutcome → Classification
  | ⟨.ok, _⟩ => .Ready
  | ⟨.err .retryable, _⟩ => .Retryable
  | ⟨.err (.generic _), _⟩ => .Fatal

/-- Timeout of the polling loop in seconds (`timeoutSeconds` in
`checkTunnelStatusWithRetry`: 4 minutes, matching the App Service internal
timeout for starting up an app). -/
def timeoutSeconds : Nat := 240

/-- Timeout of the polling loop in milliseconds (`timeoutMs`). -/
def timeoutMs : Nat := timeoutSeconds * 1000

/-- Interval between polls in milliseconds (`pollingIntervalMs`). -/
def pollingIntervalMs : Nat := 5000

/-- Observable events of one run of the polling loop: a status poll (with its
iteration index), a wake ping issued during a poll, an interval sleep
(`await delay(pollingIntervalMs)`). -/
inductive LoopEvent where
  | poll (i : Nat)
  | wakePing
  | sleep (ms : Nat)
deriving Repr, DecidableEq

/-- Outcome of the polling loop promise: `resolve()` or `reject(new Error m)`. -/
inductive LoopOutcome where
  | resolved
  | rejected (message : String)
deriving Repr, DecidableEq

/-- Result of the polling loop: its outcome plus the emitted event trace. -/
structure LoopResult where
  outcome : LoopOutcome
  events : List LoopEvent
deriving Repr, DecidableEq

/-- PollOutcome of iteration `i` of the loop, given the environment `responses`
assigning to each iteration the outcome of its status fetch and (if issued)
its wake ping. -/
def pollAt (isSsh : Bool) (responses : Nat → FetchResult × PingResult)
    (i : Nat) : PollOutcome :=
  checkTunnelStatus isSsh (responses i).1 (responses i).2

/-- Events emitted by iteration `i` itself: the poll, followed by the wake
ping when the `STOPPED` branch issued one. -/
def pollEventsAt (isSsh : Bool) (responses : Nat → FetchResult × PingResult)
    (i : Nat) : List LoopEvent :=
  LoopEvent.poll i ::
    (if (pollAt isSsh responses i).pingIssued then [LoopEvent.wakePing] else [])

/-- Model of the `while` loop of `checkTunnelStatusWithRetry`, beginning at
iteration `i`.  The status request is treated as instantaneous, so the clock
at the top of iteration `i` reads `start + i * pollingIntervalMs` and the
loop guard `Date.now() < start + timeoutMs` becomes
`i * pollingIntervalMs < timeoutMs`.  Inside the guard: poll; on normal
return resolve; on a non-retryable error reject with the `tunnelFailed`
message wrapping `parseError(error).message`; on `RetryableTunnelStatusError`
sleep for the interval and continue.  When the guard fails, reject with the
`tunnelTimedOut` message.  `fuel` bounds the recursion; the wrapper passes
enough fuel that the zero-fuel branch is unreachable (the guard fails from
iteration 48 on). -/
def checkLoopFrom (isSsh : Bool) (responses : Nat → FetchResult × PingResult) :
    Nat → Nat → LoopResult
  | _i, 0 =>
      ⟨.rejected "Unable to establish connection to application: Timed out", []⟩
  | i, fuel + 1 =>
      if i * pollingIntervalMs < timeoutMs then
        match (pollAt isSsh responses i).result with
        | .ok => ⟨.resolved, pollEventsAt isSsh responses i⟩
        | .err .retryable =>
            ⟨(checkLoopFrom isSsh responses (i + 1) fuel).outcome,
              pollEventsAt isSsh responses i ++
                LoopEvent.sleep pollingIntervalMs ::
                  (checkLoopFrom isSsh responses (i + 1) fuel).events⟩
        | .err (.generic m) =>
            ⟨.rejected ("Unable to establish connection to application: " ++ m),
              pollEventsAt isSsh responses i⟩
      else
        ⟨.rejected "Unable to establish connection to application: Timed out", []⟩

/-- Model of `TunnelProxy.checkTunnelStatusWithRetry`: run the loop from
iteration 0.  Fuel 49 suffices: the guard fails at iteration 48
(`48 * 5000 = 240000`), so at most 48 iterations recurse. -/
def checkTunnelStatusWithRetry (isSsh : Bool)
    (responses : Nat → FetchResult × PingResult) : LoopResult :=
  checkLoopFrom isSsh responses 0 49

/-- Event segment produced by `k` consecutive retryable iterations starting
at iteration `i`: each contributes its poll events and one interval sleep. -/
def retrySegment (isSsh : Bool) (responses : Nat → FetchResult × PingResult) :
    Nat → Nat → List LoopEvent
  | _i, 0 => []
  | i, k + 1 =>
      pollEventsAt isSsh responses i ++
        LoopEvent.sleep pollingIntervalMs :: retrySegment isSsh responses (i + 1) k

/-- Recognizer for poll events. -/
def isPollEv : LoopEvent → Bool
  | .poll _ => true
  | _ => false

/-- Recognizer for sleep events. -/
def isSleepEv : LoopEvent → Bool
  | .sleep _ => true
  | _ => false

/-- Timestamps (in ms from the loop start) of the polls in a loop result:
iteration `i` polls at time `i * pollingIntervalMs`. -/
def pollTimes (r : LoopResult) : List Nat :=
  r.events.filterMap (fun e =>
    match e with
    | .poll i => some (i * pollingIntervalMs)
    | _ => none)

/-- Actions of a `startProxy` run: the loop events of the readiness phase,
the `server.listen({host, port, backlog})` call of `setupTunnelServer`, and
acceptance of a client connection (the `connection` handler). -/
inductive ProxyAction where
  | loopEv (e : LoopEvent)
  | listen (host : String) (port : Nat) (backlog : Nat)
  | acceptConn (id : Nat)
deriving Repr, DecidableEq

/-- Outcome of `startProxy`. -/
inductive StartResult where
  | started
  | failed (message : String)
deriving Repr, DecidableEq

/-- Model of `TunnelProxy.startProxy`: `await this.checkTunnelStatusWithRetry()`
then `await this.setupTunnelServer()`.  If the retry loop rejects, its error
propagates and `setupTunnelServer` never runs, so no `listen` call is made
and no connection handled.  On success, `setupTunnelServer` installs the
handlers and calls `server.listen` on `localhost:<port>` with backlog 1;
connection events (`conns`, by id) can only be delivered once the server
listens. -/
def startProxy (isSsh : Bool) (port : Nat)
    (responses : Nat → FetchResult × PingResult) (conns : List Nat) :
    StartResult × List ProxyAction :=
  let r := checkTunnelStatusWithRetry isSsh responses
  match r.outcome with
  | .rejected m => (.failed m, r.events.map ProxyAction.loopEv)
  | .resolved =>
      (.started,
        r.events.map ProxyAction.loopEv ++
          ProxyAction.listen "localhost" port 1 ::
            conns.map ProxyAction.acceptConn)

/-- State of one `TunnelSocket` (the `ConnectionForwarder`), restricted to the
facts the handlers of `TunnelSocket.connect` and `TunnelSocket.dispose`
consult: whether the `_wsConnection` field is set, whether the underlying
WebSocket connection is still open (no close initiated or completed),
whether the local socket is still open (not closed, not destroyed), and
whether `_wsClient.abort()` has been called. -/
structure TS where
  wsConnection : Bool
  wsOpen : Bool
  socketAlive : Bool
  aborted : Bool
deriving Repr, DecidableEq

/-- Events delivered to the handlers that `TunnelSocket.connect` installs:
local-socket `close` / `error`, WebSocket client `connect` /
`connectFailed`, WebSocket connection `close` / `error`. -/
inductive LegEvent where
  | socketClose
  | socketError (message : String)
  | wsConnect
  | wsClose
  | wsError (message : String)
  | wsConnectFailed (message : String)
deriving Repr, DecidableEq

/-- Terminal notifications the `TunnelSocket` emits to its owner
(`this.emit(close)` / `this.emit(error, err)`). -/
inductive Notification where
  | close
  | error (message : String)
deriving Repr, DecidableEq

/-- Model of `TunnelSocket.dispose`, returning the new state plus the leg
events this call itself provokes, per the leg semantics the source relies
on: `this._wsConnection.close()` on a still-open WebSocket connection
initiates a close handshake whose completion fires the connection
`close` event (a closed or closing connection fires nothing further);
`this._wsClient.abort()` cancels any in-flight connect attempt; and
`this._socket.destroy()` on a not-yet-closed local socket makes the socket
emit `close` (destroying an already-closed socket is a no-op). -/
def TS.dispose (s : TS) : TS × List LegEvent :=
  let step1 : TS × List LegEvent :=
    if s.wsConnection then
      if s.wsOpen then
        ({ s with wsConnection := false, wsOpen := false }, [LegEvent.wsClose])
      else
        ({ s with wsConnection := false }, [])
    else (s, [])
  let s2 : TS := { step1.1 with aborted := true }
  if s2.socketAlive then
    ({ s2 with socketAlive := false }, step1.2 ++ [LegEvent.socketClose])
  else (s2, step1.2)

/-- Handler dispatch of the `TunnelSocket`, exactly as wired by
`TunnelSocket.connect`: a local-socket `close` marks the socket closed,
then runs `this.dispose(); this.emit(close)`; a local-socket `error`
runs `dispose` then emits `error` (Node fires the socket `close`
directly afterwards, which here arises from the `destroy()` inside
`dispose`); the WebSocket `connect` stores the connection and resumes the
socket; a connection `close` marks the WebSocket closed, runs `dispose`
and emits `close`; a connection `error` or a `connectFailed` runs
`dispose` and emits `error`.  Returns the new state, the leg events
provoked by the dispose call, and the notifications emitted. -/
def TS.handleEvent (s : TS) : LegEvent → TS × List LegEvent × List Notification
  | .socketClose =>
      let d := TS.dispose { s with socketAlive := false }
      (d.1, d.2, [Notification.close])
  | .socketError m =>
      let d := TS.dispose s
      (d.1, d.2, [Notification.error m])
  | .wsConnect =>
      ({ s with wsConnection := true, wsOpen := true }, [], [])
  | .wsClose =>
      let d := TS.dispose { s with wsOpen := false }
      (d.1, d.2, [Notification.close])
  | .wsError m =>
      let d := TS.dispose s
      (d.1, d.2, [Notification.error m])
  | .wsConnectFailed m =>
      let d := TS.dispose s
      (d.1, d.2, [Notification.error m])

/-- Event-queue execution of the `TunnelSocket` machine: deliver the queued
events in order, appending the leg events each handler provokes, and collect
the notifications emitted.  `fuel` bounds the run; every dispose can provoke
at most one `wsClose` and one `socketClose` in total (guarded by the
`wsOpen` / `socketAlive` flags), so a small fuel exhausts every queue. -/
def TS.run : Nat → TS → List LegEvent → TS × List Notification
  | _, s, [] => (s, [])
  | 0, s, _ => (s, [])
  | fuel + 1, s, e :: queue =>
      let h := TS.handleEvent s e
      let rest := TS.run fuel h.1 (queue ++ h.2.1)
      (rest.1, h.2.2 ++ rest.2)

/-- State of a fully established forwarder: `_wsConnection` set, WebSocket
connection open, local socket open, nothing aborted. -/
def connectedTS : TS := ⟨true, true, true, false⟩

/-- Terminal disposed state of a forwarder: no `_wsConnection`, WebSocket
leg no longer open, local socket destroyed, client aborted. -/
def TS.disposed (s : TS) : Bool :=
  !s.wsConnection && !s.wsOpen && !s.socketAlive && s.aborted

/-- Mutable fields of the `TunnelProxy` class: the `_openSockets` registry,
whether `_server.close()` / `_server.unref()` have been called, and the
immutable `_isSsh` / `_port` configuration. -/
structure ProxyState where
  openSockets : List TS
  serverClosed : Bool
  serverUnref : Bool
  isSsh : Bool
  port : Nat
deriving Repr, DecidableEq

/-- Model of `TunnelProxy.dispose`: dispose every registered `TunnelSocket`,
then `server.close()` and `server.unref()`.  the Node `net.Server.close()`
without a callback raises no error even if the server is already closed or
never listened, so the model has no error outcome. -/
def ProxyState.dispose (p : ProxyState) : ProxyState :=
  { p with
      openSockets := p.openSockets.map (fun s => (TS.dispose s).1),
      serverClosed := true,
      serverUnref := true }

/-- Model of the readiness wait as invoked on a `TunnelProxy` instance: the
loop of `checkTunnelStatusWithRetry` reads only the immutable `_isSsh`
configuration (plus `_client` / `_publishCredential`, which determine the
request environment `responses`); it consults none of the fields that
`TunnelProxy.dispose` mutates (`_openSockets`, `_server`) and no
cancellation flag. -/
def proxyCheckTunnelStatusWithRetry (p : ProxyState)
    (responses : Nat → FetchResult × PingResult) : LoopResult :=
  checkTunnelStatusWithRetry p.isSsh responses

/-! Helper lemmas about the polling loop. -/

/-- Concrete all-retryable environment: every poll reports `STARTING`. -/
def startingResponses : Nat → FetchResult × PingResult :=
  fun _ => (.success ⟨80, false, "STARTING", ""⟩, .response 200)

theorem countP_isPollEv_pollEventsAt (isSsh : Bool)
    (responses : Nat → FetchResult × PingResult) (i : Nat) :
    (pollEventsAt isSsh responses i).countP isPollEv = 1 := by
  unfold pollEventsAt
  split <;> simp [List.countP_cons, isPollEv]

theorem countP_isSleepEv_pollEventsAt (isSsh : Bool)
    (responses : Nat → FetchResult × PingResult) (i : Nat) :
    (pollEventsAt isSsh responses i).countP isSleepEv = 0 := by
  unfold pollEventsAt
  split <;> simp [List.countP_cons, isSleepEv]

theorem sleep_not_mem_pollEventsAt (isSsh : Bool)
    (responses : Nat → FetchResult × PingResult) (i ms : Nat) :
    LoopEvent.sleep ms ∉ pollEventsAt isSsh responses i := by
  unfold pollEventsAt
  split <;> simp

theorem countP_isPollEv_retrySegment (isSsh : Bool)
    (responses : Nat → FetchResult × PingResult) :
    ∀ (k i : Nat), (retrySegment isSsh responses i k).countP isPollEv = k := by
  intro k
  induction k with
  | zero => intro i; simp [retrySegment]
  | succ k ih =>
      intro i
      simp [retrySegment, List.countP_append, List.countP_cons,
        countP_isPollEv_pollEventsAt, isPollEv, ih]
      omega

theorem countP_isSleepEv_retrySegment (isSsh : Bool)
    (responses : Nat → FetchResult × PingResult) :
    ∀ (k i : Nat), (retrySegment isSsh responses i k).countP isSleepEv = k := by
  intro k
  induction k with
  | zero => intro i; simp [retrySegment]
  | succ k ih =>
      intro i
      simp [retrySegment, List.countP_append, List.countP_cons,
        countP_isSleepEv_pollEventsAt, isSleepEv, ih]

/-- Running the loop over `k` consecutive retryable iterations starting at
iteration `i` produces their retry segment and continues at iteration
`i + k` with `k` fewer units of fuel. -/
theorem checkLoopFrom_retry_shift (isSsh : Bool)
    (responses : Nat → FetchResult × PingResult) :
    ∀ (k i fuel : Nat), i + k ≤ 48 →
    (∀ j, j < k →
      (pollAt isSsh responses (i + j)).result = CheckResult.err TunnelError.retryable) →
    checkLoopFrom isSsh responses i (fuel + k) =
      ⟨(checkLoopFrom isSsh responses (i + k) fuel).outcome,
        retrySegment isSsh responses i k ++
          (checkLoopFrom isSsh responses (i + k) fuel).events⟩ := by
  intro k
  induction k with
  | zero =>
      intro i fuel _ _
      simp [retrySegment]
  | succ k ih =>
      intro i fuel hle hretry
      have hguard : i * pollingIntervalMs < timeoutMs := by
        simp only [pollingIntervalMs, timeoutMs, timeoutSeconds]
        omega
      have h0 : (pollAt isSsh responses i).result =
          CheckResult.err TunnelError.retryable := by
        simpa using hretry 0 (Nat.succ_pos k)
      have hstep : checkLoopFrom isSsh responses i (fuel + (k + 1)) =
          ⟨(checkLoopFrom isSsh responses (i + 1) (fuel + k)).outcome,
            pollEventsAt isSsh responses i ++
              LoopEvent.sleep pollingIntervalMs ::
                (checkLoopFrom isSsh responses (i + 1) (fuel + k)).events⟩ := by
        show checkLoopFrom isSsh responses i ((fuel + k) + 1) = _
        rw [checkLoopFrom, if_pos hguard, h0]
      have hretry' : ∀ j, j < k →
          (pollAt isSsh responses ((i + 1) + j)).result =
            CheckResult.err TunnelError.retryable := by
        intro j hj
        have hidx : (i + 1) + j = i + (j + 1) := by omega
        rw [hidx]
        exact hretry (j + 1) (by omega)
      have hrec := ih (i + 1) fuel (by omega) hretry'
      have hidx2 : (i + 1) + k = i + (k + 1) := by omega
      rw [hstep, hrec, hidx2]
      simp [retrySegment, List.append_assoc]

/-- From iteration 48 on, the loop guard fails and the loop rejects with the
timeout message, having emitted no further events. -/
theorem checkLoopFrom_at_48 (isSsh : Bool)
    (responses : Nat → FetchResult × PingResult) (fuel : Nat) :
    checkLoopFrom isSsh responses 48 (fuel + 1) =
      ⟨.rejected "Unable to establish connection to application: Timed out", []⟩ := by
  rw [checkLoopFrom, if_neg]
  simp only [pollingIntervalMs, timeoutMs, timeoutSeconds]
  omega

/-- A resolved loop run contains a poll whose outcome was Ready. -/
theorem checkLoopFrom_resolved_ready (isSsh : Bool)
    (responses : Nat → FetchResult × PingResult) :
    ∀ (fuel i : Nat),
    (checkLoopFrom isSsh responses i fuel).outcome = LoopOutcome.resolved →
    ∃ j, (pollAt isSsh responses j).result = CheckResult.ok ∧
      LoopEvent.poll j ∈ (checkLoopFrom isSsh responses i fuel).events := by
  intro fuel
  induction fuel with
  | zero =>
      intro i h
      simp [checkLoopFrom] at h
  | succ fuel ih =>
      intro i h
      by_cases hg : i * pollingIntervalMs < timeoutMs
      · rw [checkLoopFrom, if_pos hg] at h ⊢
        cases hr : (pollAt isSsh responses i).result with
        | ok =>
            exact ⟨i, hr, by simp [pollEventsAt]⟩
        | err e =>
            cases e with
            | retryable =>
                rw [hr] at h
                obtain ⟨j, hj, hmem⟩ := ih (i + 1) h
                exact ⟨j, hj, by simp [hmem]⟩
            | generic m =>
                rw [hr] at h
                exact LoopOutcome.noConfusion h
      · rw [checkLoopFrom, if_neg hg] at h
        simp at h

/-- When the loop guard holds, the first event of the run is the poll of the
current iteration. -/
theorem checkLoopFrom_events_head (isSsh : Bool)
    (responses : Nat → FetchResult × PingResult) (i fuel : Nat)
    (hg : i * pollingIntervalMs < timeoutMs) :
    (checkLoopFrom isSsh responses i (fuel + 1)).events.head? =
      some (LoopEvent.poll i) := by
  rw [checkLoopFrom, if_pos hg]
  cases hr : (pollAt isSsh responses i).result with
  | ok => simp [pollEventsAt]
  | err e =>
      cases e with
      | retryable => simp [pollEventsAt]
      | generic m => simp [pollEventsAt]

/-! Helper lemmas about the `TunnelSocket` machine and the proxy state. -/

/-- After `TunnelSocket.dispose`, a forwarder whose state satisfies the
reachability invariant (an open WebSocket leg implies the `_wsConnection`
field is set) is in the terminal disposed state. -/
theorem TS.dispose_fst_disposed (t : TS)
    (h : t.wsOpen = true → t.wsConnection = true) :
    TS.disposed (TS.dispose t).1 = true := by
  rcases t with ⟨wc, wo, sa, ab⟩
  cases wc <;> cases wo <;> cases sa <;> cases ab <;> simp_all [TS.dispose, TS.disposed]

/-- Calling `TunnelSocket.dispose` on an already-disposed forwarder leaves
the state unchanged and provokes no leg events: the WebSocket branch is
guarded by the `_wsConnection` check, `abort` is idempotent, and destroying
a destroyed socket is a no-op. -/
theorem TS.dispose_of_dispose (t : TS) :
    TS.dispose ((TS.dispose t).1) = ((TS.dispose t).1, ([] : List LegEvent)) := by
  rcases t with ⟨wc, wo, sa, ab⟩
  cases wc <;> cases wo <;> cases sa <;> cases ab <;> rfl

theorem TS.dispose_fst_idem (t : TS) :
    (TS.dispose ((TS.dispose t).1)).1 = (TS.dispose t).1 := by
  rcases t with ⟨wc, wo, sa, ab⟩
  cases wc <;> cases wo <;> cases sa <;> cases ab <;> rfl

theorem map_dispose_fst_idem (l : List TS) :
    (l.map (fun s => (TS.dispose s).1)).map (fun s => (TS.dispose s).1) =
      l.map (fun s => (TS.dispose s).1) := by
  induction l with
  | nil => rfl
  | cons t l ih => simp only [List.map_cons, ih, TS.dispose_fst_idem]

/-- `TunnelProxy.dispose` is idempotent on the proxy state. -/
theorem ProxyState.dispose_idem (p : ProxyState) :
    ProxyState.dispose (ProxyState.dispose p) = ProxyState.dispose p := by
  rcases p with ⟨os, sc, su, ssh, pt⟩
  simp only [ProxyState.dispose, ProxyState.mk.injEq, and_true, true_and]
  exact map_dispose_fst_idem os

/-- Concrete proxy with three registered forwarders in reachable states:
one fully connected, one connected, one whose WebSocket leg has not come up. -/
def sampleProxy : ProxyState :=
  ⟨[connectedTS, ⟨true, true, true, false⟩, ⟨false, false, true, false⟩],
    false, false, false, 8080⟩

/-- C1 (counterexample).  The claim says that closing the local socket while
the WebSocket leg is still open makes the forwarder emit exactly one `close`
event in total.  On the code it emits two: the socket `close` handler runs
`dispose()` (whose `wsConnection.close()` completes a WebSocket close
handshake that fires the connection `close` handler, emitting a second
`close`) and then emits the first one. -/
theorem claimC1_counterexample :
    ¬ (TS.run 8 connectedTS [LegEvent.socketClose]).2.count Notification.close
        = 1 := by decide

/-- C1 (amended).  Closing the local socket while the WebSocket leg is still
open triggers `dispose()` and one terminal `close` notification per leg —
exactly two `close` events in total, the socket leg immediately and the
WebSocket leg when the close initiated by `dispose()` completes — and the
forwarder ends in the fully disposed terminal state.  Symmetrically, a
WebSocket close with the local socket still open also emits two `close`
events. -/
theorem claimC1_two_terminal_closes :
    (TS.run 8 connectedTS [LegEvent.socketClose]).2 =
      [Notification.close, Notification.close] ∧
    (TS.run 8 connectedTS [LegEvent.socketClose]).2.count Notification.close = 2 ∧
    TS.disposed (TS.run 8 connectedTS [LegEvent.socketClose]).1 = true ∧
    (TS.run 8 connectedTS [LegEvent.wsClose]).2 =
      [Notification.close, Notification.close] := by decide

/-- C2 (counterexample).  The claim says that if `dispose()` is called during
the readiness wait, the loop observes the cancellation by its next wakeup and
performs no further polls.  On the code there is no cancellation state at
all: with `dispose()` already performed at time 0 and every poll retryable,
the loop still performs polls strictly after the first interval boundary
(`0 + pollingIntervalMs`). -/
theorem claimC2_counterexample :
    ((pollTimes (proxyCheckTunnelStatusWithRetry
        (ProxyState.dispose ⟨[], false, false, false, 8080⟩) startingResponses)).any
      (fun t => decide (0 + pollingIntervalMs < t))) = true := by decide

/-- C2 (amended).  `dispose()` does not cancel the readiness polling:
`TunnelProxy.dispose` mutates only the socket registry and the server, none
of which the loop of `checkTunnelStatusWithRetry` reads, so the loop result
is identical on a disposed and an undisposed proxy; in particular, with every
poll retryable, a proxy disposed before the wait still performs all 48 polls
of the full schedule. -/
theorem claimC2_no_cancellation (p : ProxyState) :
    (∀ responses, proxyCheckTunnelStatusWithRetry (ProxyState.dispose p) responses =
        proxyCheckTunnelStatusWithRetry p responses) ∧
    (proxyCheckTunnelStatusWithRetry (ProxyState.dispose p)
        startingResponses).events.countP isPollEv = 48 := by
  constructor
  · intro responses
    rfl
  · rcases p with ⟨os, sc, su, ssh, pt⟩
    cases ssh <;> rfl

/-- C3.  A fetched status with state `STARTED`, port 2222 and
`canReachPort = true` classifies as Retryable when `isSsh = false` (the
port-mismatch case) and as Ready when `isSsh = true`; and a `STARTED` status
with a port other than 2222 classifies as Retryable when `isSsh = true`. -/
theorem claimC3_started_classification (msg : String) (ping : PingResult)
    (canReach : Bool) (port : Int) (hp : port ≠ 2222) :
    (checkTunnelStatus false (.success ⟨2222, true, "STARTED", msg⟩)
        ping).classification = Classification.Retryable ∧
    (checkTunnelStatus true (.success ⟨2222, true, "STARTED", msg⟩)
        ping).classification = Classification.Ready ∧
    (checkTunnelStatus true (.success ⟨port, canReach, "STARTED", msg⟩)
        ping).classification = Classification.Retryable := by
  refine ⟨rfl, rfl, ?_⟩
  simp [checkTunnelStatus, PollOutcome.classification, hp]

/-- C3 (witness). -/
theorem claimC3_witness :
    ((8080 : Int) ≠ 2222) ∧
    (checkTunnelStatus false (.success ⟨2222, true, "STARTED", ""⟩)
        (.response 200)).classification = Classification.Retryable ∧
    (checkTunnelStatus true (.success ⟨2222, true, "STARTED", ""⟩)
        (.response 200)).classification = Classification.Ready ∧
    (checkTunnelStatus true (.success ⟨8080, true, "STARTED", ""⟩)
        (.response 200)).classification = Classification.Retryable :=
  ⟨by decide, claimC3_started_classification "" (.response 200) true 8080 (by decide)⟩

/-- C9.  Disposing a proxy with `N` registered forwarders (in reachable
states: an open WebSocket leg implies the `_wsConnection` field is set)
brings all `N` of them to the terminal disposed state, releases the server
(`close` and `unref` called), and is idempotent: a second `dispose()` leaves
the state unchanged, raises no error (the Node `server.close()` without a
callback reports none), and frees nothing twice (a second
`TunnelSocket.dispose` provokes no further release actions). -/
theorem claimC9_dispose_complete_idempotent (p : ProxyState)
    (hinv : ∀ s ∈ p.openSockets, s.wsOpen = true → s.wsConnection = true) :
    (ProxyState.dispose p).openSockets.all TS.disposed = true ∧
    (ProxyState.dispose p).openSockets.length = p.openSockets.length ∧
    (ProxyState.dispose p).serverClosed = true ∧
    (ProxyState.dispose p).serverUnref = true ∧
    ProxyState.dispose (ProxyState.dispose p) = ProxyState.dispose p ∧
    (∀ s ∈ (ProxyState.dispose p).openSockets,
      TS.dispose s = (s, ([] : List LegEvent))) := by
  refine ⟨?_, ?_, ?_, ?_, ProxyState.dispose_idem p, ?_⟩
  · rcases p with ⟨os, sc, su, ssh, pt⟩
    simp only [ProxyState.dispose, List.all_eq_true]
    intro s hs
    obtain ⟨t, ht, rfl⟩ := List.mem_map.mp hs
    exact TS.dispose_fst_disposed t (hinv t ht)
  · rcases p with ⟨os, sc, su, ssh, pt⟩
    simp [ProxyState.dispose]
  · rcases p with ⟨os, sc, su, ssh, pt⟩
    rfl
  · rcases p with ⟨os, sc, su, ssh, pt⟩
    rfl
  · rcases p with ⟨os, sc, su, ssh, pt⟩
    intro s hs
    simp only [ProxyState.dispose] at hs
    obtain ⟨t, _ht, rfl⟩ := List.mem_map.mp hs
    exact TS.dispose_of_dispose t

/-- C9 (witness). -/
theorem claimC9_witness :
    (∀ s ∈ sampleProxy.openSockets, s.wsOpen = true → s.wsConnection = true) ∧
    ((ProxyState.dispose sampleProxy).openSockets.all TS.disposed = true ∧
    (ProxyState.dispose sampleProxy).openSockets.length =
      sampleProxy.openSockets.length ∧
    (ProxyState.dispose sampleProxy).serverClosed = true ∧
    (ProxyState.dispose sampleProxy).serverUnref = true ∧
    ProxyState.dispose (ProxyState.dispose sampleProxy) =
      ProxyState.dispose sampleProxy ∧
    (∀ s ∈ (ProxyState.dispose sampleProxy).openSockets,
      TS.dispose s = (s, ([] : List LegEvent)))) :=
  ⟨by decide, claimC9_dispose_complete_idempotent sampleProxy (by decide)⟩

theorem checkTunnelStatusWithRetry_def (isSsh : Bool)
    (responses : Nat → FetchResult × PingResult) :
    checkTunnelStatusWithRetry isSsh responses = checkLoopFrom isSsh responses 0 49 := rfl

/-- Environment whose poll 0 is retryable (`STARTING`) and whose poll 1
reports an unexpected state. -/
def fatalAtOneResponses : Nat → FetchResult × PingResult :=
  fun i =>
    if i = 0 then (.success ⟨80, false, "STARTING", ""⟩, .response 200)
    else (.success ⟨80, false, "BROKEN", ""⟩, .response 200)

/-- C5.  If every poll before the deadline is retryable, the loop rejects
with the timeout error; the number of polls performed (and of interval
sleeps) equals `timeoutMs / pollingIntervalMs = 48`, which is within the
claimed `floor(timeout/interval) ± 1`; and the defaults are a 240-second
timeout with a 5000 ms interval. -/
theorem claimC5_timeout_poll_count (isSsh : Bool)
    (responses : Nat → FetchResult × PingResult)
    (hall : ∀ j, j < 48 →
      (pollAt isSsh responses j).result = CheckResult.err TunnelError.retryable) :
    (checkTunnelStatusWithRetry isSsh responses).outcome =
      LoopOutcome.rejected "Unable to establish connection to application: Timed out" ∧
    (checkTunnelStatusWithRetry isSsh responses).events.countP isPollEv =
      timeoutMs / pollingIntervalMs ∧
    (checkTunnelStatusWithRetry isSsh responses).events.countP isSleepEv =
      timeoutMs / pollingIntervalMs ∧
    timeoutMs / pollingIntervalMs = 48 ∧
    timeoutSeconds = 240 ∧ pollingIntervalMs = 5000 := by
  have hshift := checkLoopFrom_retry_shift isSsh responses 48 0 1 (by omega)
    (fun j hj => by simpa using hall j hj)
  have h48 : checkLoopFrom isSsh responses (0 + 48) 1 =
      ⟨.rejected "Unable to establish connection to application: Timed out", []⟩ :=
    checkLoopFrom_at_48 isSsh responses 0
  rw [h48] at hshift
  have hwrap : checkTunnelStatusWithRetry isSsh responses =
      ⟨.rejected "Unable to establish connection to application: Timed out",
        retrySegment isSsh responses 0 48⟩ := by
    rw [checkTunnelStatusWithRetry_def]
    have h49 : checkLoopFrom isSsh responses 0 49 =
        checkLoopFrom isSsh responses 0 (1 + 48) := rfl
    rw [h49, hshift]
    simp
  rw [hwrap]
  refine ⟨rfl, ?_, ?_, rfl, rfl, rfl⟩
  · rw [countP_isPollEv_retrySegment]
    decide
  · rw [countP_isSleepEv_retrySegment]
    decide

/-- C5 (witness). -/
theorem claimC5_witness :
    (∀ j, j < 48 →
      (pollAt false startingResponses j).result = CheckResult.err TunnelError.retryable) ∧
    ((checkTunnelStatusWithRetry false startingResponses).outcome =
      LoopOutcome.rejected "Unable to establish connection to application: Timed out" ∧
    (checkTunnelStatusWithRetry false startingResponses).events.countP isPollEv =
      timeoutMs / pollingIntervalMs ∧
    (checkTunnelStatusWithRetry false startingResponses).events.countP isSleepEv =
      timeoutMs / pollingIntervalMs ∧
    timeoutMs / pollingIntervalMs = 48 ∧
    timeoutSeconds = 240 ∧ pollingIntervalMs = 5000) :=
  ⟨by decide, claimC5_timeout_poll_count false startingResponses (by decide)⟩

/-- C4.  When the loop reaches iteration `i` (all earlier polls retryable)
and the poll at `i` classifies Fatal, the loop rejects immediately with the
wrapping message: the full trace is the `i` retry segments followed by the
fatal poll own events, so exactly `i` sleeps and `i + 1` polls occur and no
sleep and no further poll follow the Fatal classification (the fatal poll
events contain no sleep). -/
theorem claimC4_fatal_rejects_immediately (isSsh : Bool)
    (responses : Nat → FetchResult × PingResult) (i : Nat) (m : String)
    (hi : i < 48)
    (hpre : ∀ j, j < i →
      (pollAt isSsh responses j).result = CheckResult.err TunnelError.retryable)
    (hfatal : (pollAt isSsh responses i).result =
      CheckResult.err (TunnelError.generic m)) :
    checkTunnelStatusWithRetry isSsh responses =
      ⟨LoopOutcome.rejected ("Unable to establish connection to application: " ++ m),
        retrySegment isSsh responses 0 i ++ pollEventsAt isSsh responses i⟩ ∧
    (checkTunnelStatusWithRetry isSsh responses).events.countP isSleepEv = i ∧
    (checkTunnelStatusWithRetry isSsh responses).events.countP isPollEv = i + 1 ∧
    (∀ ms, LoopEvent.sleep ms ∉ pollEventsAt isSsh responses i) := by
  have hguard : i * pollingIntervalMs < timeoutMs := by
    simp only [pollingIntervalMs, timeoutMs, timeoutSeconds]
    omega
  have hstep : checkLoopFrom isSsh responses i ((48 - i) + 1) =
      ⟨.rejected ("Unable to establish connection to application: " ++ m),
        pollEventsAt isSsh responses i⟩ := by
    rw [checkLoopFrom, if_pos hguard, hfatal]
  have hshift := checkLoopFrom_retry_shift isSsh responses i 0 ((48 - i) + 1)
    (by omega) (fun j hj => by simpa using hpre j hj)
  rw [show (0 : Nat) + i = i from by omega] at hshift
  rw [hstep] at hshift
  have hmain : checkTunnelStatusWithRetry isSsh responses =
      ⟨LoopOutcome.rejected ("Unable to establish connection to application: " ++ m),
        retrySegment isSsh responses 0 i ++ pollEventsAt isSsh responses i⟩ := by
    rw [checkTunnelStatusWithRetry_def]
    have hfuel : checkLoopFrom isSsh responses 0 49 =
        checkLoopFrom isSsh responses 0 (((48 - i) + 1) + i) := by
      rw [show ((48 - i) + 1) + i = 49 from by omega]
    rw [hfuel, hshift]
  refine ⟨hmain, ?_, ?_, fun ms => sleep_not_mem_pollEventsAt isSsh responses i ms⟩
  · rw [hmain]
    simp [List.countP_append, countP_isSleepEv_retrySegment,
      countP_isSleepEv_pollEventsAt]
  · rw [hmain]
    simp [List.countP_append, countP_isPollEv_retrySegment,
      countP_isPollEv_pollEventsAt]

/-- C4 (witness). -/
theorem claimC4_witness :
    (1 < 48) ∧
    (∀ j, j < 1 →
      (pollAt false fatalAtOneResponses j).result = CheckResult.err TunnelError.retryable) ∧
    ((pollAt false fatalAtOneResponses 1).result =
      CheckResult.err (TunnelError.generic "Unexpected app state: BROKEN")) ∧
    (checkTunnelStatusWithRetry false fatalAtOneResponses =
      ⟨LoopOutcome.rejected
          ("Unable to establish connection to application: " ++ "Unexpected app state: BROKEN"),
        retrySegment false fatalAtOneResponses 0 1 ++ pollEventsAt false fatalAtOneResponses 1⟩ ∧
    (checkTunnelStatusWithRetry false fatalAtOneResponses).events.countP isSleepEv = 1 ∧
    (checkTunnelStatusWithRetry false fatalAtOneResponses).events.countP isPollEv = 1 + 1 ∧
    (∀ ms, LoopEvent.sleep ms ∉ pollEventsAt false fatalAtOneResponses 1)) :=
  ⟨by decide, by decide, by decide,
    claimC4_fatal_rejects_immediately false fatalAtOneResponses 1
      "Unexpected app state: BROKEN" (by decide) (by decide) (by decide)⟩

/-- Concrete environment: every poll reports `STOPPED` and the wake ping gets
an HTTP 503 response. -/
def stoppedResponses : Nat → FetchResult × PingResult :=
  fun _ => (.success ⟨2222, true, "STOPPED", ""⟩, .response 503)

/-- Concrete environment: every poll reports `STOPPED` and the wake ping
itself fails at the transport level. -/
def stoppedPingFailResponses : Nat → FetchResult × PingResult :=
  fun _ => (.success ⟨2222, true, "STOPPED", ""⟩, .transportError "socket hang up")

/-- Concrete environment: every status fetch fails. -/
def fetchFailResponses : Nat → FetchResult × PingResult :=
  fun _ => (.failure "RequestError" "getaddrinfo ENOTFOUND", .response 200)

/-- Concrete environment: every poll reports `STARTED` on a reachable
non-SSH port. -/
def readyResponses : Nat → FetchResult × PingResult :=
  fun _ => (.success ⟨8080, true, "STARTED", ""⟩, .response 200)

/-- C6.  A fetched status with state `STOPPED` makes the checker issue the
wake ping (whose response is accepted whatever its status code, 2xx or not)
and then classify Retryable; in the loop the poll is therefore followed by
the 5000 ms interval sleep and then by the next poll. -/
theorem claimC6_stopped_pings_then_retries (st : ITunnelStatus)
    (hst : st.state = "STOPPED") (code : Nat)
    (responses : Nat → FetchResult × PingResult)
    (hresp : responses 0 = (.success st, .response code)) :
    checkTunnelStatus false (.success st) (.response code) =
      ⟨.err TunnelError.retryable, true⟩ ∧
    (checkTunnelStatus false (.success st) (.response code)).classification =
      Classification.Retryable ∧
    (∃ rest, (checkTunnelStatusWithRetry false responses).events =
      LoopEvent.poll 0 :: LoopEvent.wakePing ::
        LoopEvent.sleep pollingIntervalMs :: rest ∧
      rest.head? = some (LoopEvent.poll 1)) ∧
    pollingIntervalMs = 5000 := by
  obtain ⟨p, c, s, m⟩ := st
  simp only [ITunnelStatus.state] at hst
  subst hst
  have hcheck : checkTunnelStatus false (.success ⟨p, c, "STOPPED", m⟩)
      (.response code) = ⟨.err TunnelError.retryable, true⟩ := rfl
  refine ⟨hcheck, rfl, ?_, rfl⟩
  have hpoll : (pollAt false responses 0).result = CheckResult.err TunnelError.retryable := by
    simp [pollAt, hresp, hcheck]
  have hping : (pollAt false responses 0).pingIssued = true := by
    simp [pollAt, hresp, hcheck]
  have hstep : checkLoopFrom false responses 0 (48 + 1) =
      ⟨(checkLoopFrom false responses 1 48).outcome,
        pollEventsAt false responses 0 ++
          LoopEvent.sleep pollingIntervalMs ::
            (checkLoopFrom false responses 1 48).events⟩ := by
    rw [checkLoopFrom, if_pos (by decide), hpoll]
  refine ⟨(checkLoopFrom false responses 1 48).events, ?_, ?_⟩
  · rw [checkTunnelStatusWithRetry_def]
    have h49 : checkLoopFrom false responses 0 49 =
        checkLoopFrom false responses 0 (48 + 1) := rfl
    rw [h49, hstep]
    simp [pollEventsAt, hping]
  · exact checkLoopFrom_events_head false responses 1 47 (by decide)

/-- C6 (witness). -/
theorem claimC6_witness :
    ((⟨2222, true, "STOPPED", ""⟩ : ITunnelStatus).state = "STOPPED") ∧
    (stoppedResponses 0 = (.success ⟨2222, true, "STOPPED", ""⟩, .response 503)) ∧
    (checkTunnelStatus false (.success ⟨2222, true, "STOPPED", ""⟩)
        (.response 503) = ⟨.err TunnelError.retryable, true⟩ ∧
    (checkTunnelStatus false (.success ⟨2222, true, "STOPPED", ""⟩)
        (.response 503)).classification = Classification.Retryable ∧
    (∃ rest, (checkTunnelStatusWithRetry false stoppedResponses).events =
      LoopEvent.poll 0 :: LoopEvent.wakePing ::
        LoopEvent.sleep pollingIntervalMs :: rest ∧
      rest.head? = some (LoopEvent.poll 1)) ∧
    pollingIntervalMs = 5000) :=
  ⟨rfl, rfl,
    claimC6_stopped_pings_then_retries ⟨2222, true, "STOPPED", ""⟩ rfl 503
      stoppedResponses rfl⟩

/-- C7.  A transport or JSON-decode failure while fetching the status is
classified Fatal (never Retryable): `checkTunnelStatus` throws a generic
error whose message wraps the parsed description (`errorType`) of the
underlying error, and the loop rejects at once — a single poll, no wake
ping, no sleep, no retry — with the `tunnelFailed` message wrapping that
error message. -/
theorem claimC7_fetch_failure_fatal (isSsh : Bool) (errorType message : String)
    (ping : PingResult) (responses : Nat → FetchResult × PingResult)
    (hresp : responses 0 = (.failure errorType message, ping)) :
    checkTunnelStatus isSsh (.failure errorType message) ping =
      ⟨.err (.generic ("Error getting tunnel status: " ++ errorType)), false⟩ ∧
    (checkTunnelStatus isSsh (.failure errorType message) ping).classification =
      Classification.Fatal ∧
    checkTunnelStatusWithRetry isSsh responses =
      ⟨.rejected ("Unable to establish connection to application: " ++
          ("Error getting tunnel status: " ++ errorType)),
        [LoopEvent.poll 0]⟩ := by
  refine ⟨rfl, rfl, ?_⟩
  have hpoll : (pollAt isSsh responses 0).result =
      CheckResult.err (.generic ("Error getting tunnel status: " ++ errorType)) := by
    simp [pollAt, hresp, checkTunnelStatus]
  have hping : (pollAt isSsh responses 0).pingIssued = false := by
    simp [pollAt, hresp, checkTunnelStatus]
  rw [checkTunnelStatusWithRetry_def]
  have h49 : checkLoopFrom isSsh responses 0 49 =
      checkLoopFrom isSsh responses 0 (48 + 1) := rfl
  rw [h49, checkLoopFrom, if_pos (by decide), hpoll]
  simp [pollEventsAt, hping]

/-- C7 (witness). -/
theorem claimC7_witness :
    (fetchFailResponses 0 =
      (.failure "RequestError" "getaddrinfo ENOTFOUND", .response 200)) ∧
    (checkTunnelStatus false (.failure "RequestError" "getaddrinfo ENOTFOUND")
        (.response 200) =
      ⟨.err (.generic ("Error getting tunnel status: " ++ "RequestError")), false⟩ ∧
    (checkTunnelStatus false (.failure "RequestError" "getaddrinfo ENOTFOUND")
        (.response 200)).classification = Classification.Fatal ∧
    checkTunnelStatusWithRetry false fetchFailResponses =
      ⟨.rejected ("Unable to establish connection to application: " ++
          ("Error getting tunnel status: " ++ "RequestError")),
        [LoopEvent.poll 0]⟩) :=
  ⟨rfl, claimC7_fetch_failure_fatal false "RequestError" "getaddrinfo ENOTFOUND"
    (.response 200) fetchFailResponses rfl⟩

/-- C10.  When the remote reports `STOPPED` and the wake-ping request itself
rejects at the transport level, `startupApp` rethrows that error instead of
the retryable marker, so the poll classifies Fatal: the loop rejects with the
wrapping message after this single poll (the ping was attempted, no sleep, no
retry) and `startProxy` fails without ever calling `listen`. -/
theorem claimC10_ping_transport_failure_fatal (isSsh : Bool)
    (st : ITunnelStatus) (hst : st.state = "STOPPED") (msg : String)
    (port : Nat) (responses : Nat → FetchResult × PingResult) (conns : List Nat)
    (hresp : responses 0 = (.success st, .transportError msg)) :
    checkTunnelStatus isSsh (.success st) (.transportError msg) =
      ⟨.err (.generic msg), true⟩ ∧
    (checkTunnelStatus isSsh (.success st) (.transportError msg)).classification =
      Classification.Fatal ∧
    checkTunnelStatusWithRetry isSsh responses =
      ⟨.rejected ("Unable to establish connection to application: " ++ msg),
        [LoopEvent.poll 0, LoopEvent.wakePing]⟩ ∧
    (startProxy isSsh port responses conns).1 =
      .failed ("Unable to establish connection to application: " ++ msg) ∧
    (∀ h p b, ProxyAction.listen h p b ∉ (startProxy isSsh port responses conns).2) := by
  obtain ⟨pp, c, s, m⟩ := st
  simp only [ITunnelStatus.state] at hst
  subst hst
  have hcheck : checkTunnelStatus isSsh (.success ⟨pp, c, "STOPPED", m⟩)
      (.transportError msg) = ⟨.err (.generic msg), true⟩ := rfl
  refine ⟨hcheck, rfl, ?_, ?_, ?_⟩
  all_goals
    have hpoll : (pollAt isSsh responses 0).result = CheckResult.err (.generic msg) := by
      simp [pollAt, hresp, hcheck]
    have hping : (pollAt isSsh responses 0).pingIssued = true := by
      simp [pollAt, hresp, hcheck]
    have hloop : checkTunnelStatusWithRetry isSsh responses =
        ⟨.rejected ("Unable to establish connection to application: " ++ msg),
          [LoopEvent.poll 0, LoopEvent.wakePing]⟩ := by
      rw [checkTunnelStatusWithRetry_def]
      have h49 : checkLoopFrom isSsh responses 0 49 =
          checkLoopFrom isSsh responses 0 (48 + 1) := rfl
      rw [h49, checkLoopFrom, if_pos (by decide), hpoll]
      simp [pollEventsAt, hping]
  · exact hloop
  · simp [startProxy, hloop]
  · intro h p b
    simp [startProxy, hloop]

/-- C10 (witness). -/
theorem claimC10_witness :
    ((⟨2222, true, "STOPPED", ""⟩ : ITunnelStatus).state = "STOPPED") ∧
    (stoppedPingFailResponses 0 =
      (.success ⟨2222, true, "STOPPED", ""⟩, .transportError "socket hang up")) ∧
    (checkTunnelStatus false (.success ⟨2222, true, "STOPPED", ""⟩)
        (.transportError "socket hang up") =
      ⟨.err (.generic "socket hang up"), true⟩ ∧
    (checkTunnelStatus false (.success ⟨2222, true, "STOPPED", ""⟩)
        (.transportError "socket hang up")).classification = Classification.Fatal ∧
    checkTunnelStatusWithRetry false stoppedPingFailResponses =
      ⟨.rejected ("Unable to establish connection to application: " ++ "socket hang up"),
        [LoopEvent.poll 0, LoopEvent.wakePing]⟩ ∧
    (startProxy false 9000 stoppedPingFailResponses []).1 =
      .failed ("Unable to establish connection to application: " ++ "socket hang up") ∧
    (∀ h p b, ProxyAction.listen h p b ∉
      (startProxy false 9000 stoppedPingFailResponses []).2)) :=
  ⟨rfl, rfl,
    claimC10_ping_transport_failure_fatal false ⟨2222, true, "STOPPED", ""⟩ rfl
      "socket hang up" 9000 stoppedPingFailResponses [] rfl⟩

/-- C8.  In every `startProxy` run, the readiness polling completes with a
Ready poll strictly before `listen` is called on `localhost:<port>` with
backlog 1 (the action trace is exactly the loop events, then the single
`listen`, then the accepted connections); and if the polling fails, no
`listen` is ever called and no connection is accepted. -/
theorem claimC8_ready_before_listen (isSsh : Bool) (port : Nat)
    (responses : Nat → FetchResult × PingResult) (conns : List Nat) :
    ((checkTunnelStatusWithRetry isSsh responses).outcome = LoopOutcome.resolved →
      (startProxy isSsh port responses conns).2 =
        (checkTunnelStatusWithRetry isSsh responses).events.map ProxyAction.loopEv ++
          ProxyAction.listen "localhost" port 1 :: conns.map ProxyAction.acceptConn ∧
      ∃ j, (pollAt isSsh responses j).result = CheckResult.ok ∧
        LoopEvent.poll j ∈ (checkTunnelStatusWithRetry isSsh responses).events) ∧
    (∀ m, (checkTunnelStatusWithRetry isSsh responses).outcome = LoopOutcome.rejected m →
      (∀ h p b, ProxyAction.listen h p b ∉ (startProxy isSsh port responses conns).2) ∧
      (∀ id, ProxyAction.acceptConn id ∉ (startProxy isSsh port responses conns).2)) := by
  constructor
  · intro hres
    constructor
    · simp [startProxy, hres]
    · have hready := checkLoopFrom_resolved_ready isSsh responses 49 0
        (by rw [checkTunnelStatusWithRetry_def] at hres; exact hres)
      rw [checkTunnelStatusWithRetry_def]
      exact hready
  · intro m hrej
    constructor
    · intro h p b
      simp [startProxy, hrej]
    · intro id
      simp [startProxy, hrej]

/-- C8 (witness). -/
theorem claimC8_witness :
    (checkTunnelStatusWithRetry false readyResponses).outcome = LoopOutcome.resolved ∧
    ((startProxy false 9000 readyResponses [7]).2 =
      (checkTunnelStatusWithRetry false readyResponses).events.map ProxyAction.loopEv ++
        ProxyAction.listen "localhost" 9000 1 ::
          ([7] : List Nat).map ProxyAction.acceptConn ∧
    ∃ j, (pollAt false readyResponses j).result = CheckResult.ok ∧
      LoopEvent.poll j ∈ (checkTunnelStatusWithRetry false readyResponses).events) :=
  ⟨by decide, (claimC8_ready_before_listen false 9000 readyResponses [7]).1 (by decide)⟩

end TunnelProxyModel
